import Mathlib

/-!
Verification of the authorization and access-token subsystem of the
fast-api-stock-management repository, shallowly embedded in Lean 4.

The embedding translates, from the source:
  - the persisted data model (app/models.py): users, roles, permissions and
    the role_permissions join table, each row mirrored as a structure whose
    fields are the columns the subsystem reads;
  - the authenticator and token issuer (app/routers/auth.py):
    authenticate_user, create_access_token, login_for_access_token;
  - the two token verifiers (app/routers/auth.py get_current_user and
    app/dependencies.py get_current_user);
  - the permission gate (app/utils.py): check_permissions and verify_user;
  - the role-permission assignment endpoints (app/routers/roles.py):
    add_permissions_to_role and remove_permissions_from_role.

JWT signing is modelled abstractly: a signed token is its claim payload
together with the signing key; decoding succeeds exactly when the keys agree
and the expiry has not passed, and a distinguished malformed constructor
stands for byte strings that are not structurally valid tokens.  Database
queries become pure functions over an explicit database value, and
HTTPException becomes an error value carrying status code and detail string.
-/

namespace StockMgmt

/-- Row of the users table (app/models.py, class Users).  Audit columns
(created_at, updated_at, created_by, updated_by) and profile columns
(first_name, last_name, email, phone) are omitted: the authorization
subsystem never reads them. -/
structure User where
  id : Nat
  username : String
  hashed_password : String
  is_active : Bool
  is_deleted : Bool
  role_id : Option Nat
deriving Repr, DecidableEq

/-- Row of the roles table (app/models.py, class Roles). -/
structure Role where
  id : Nat
  name : String
  is_deleted : Bool
deriving Repr, DecidableEq

/-- Row of the permissions table (app/models.py, class Permissions). -/
structure Permission where
  id : Nat
  name : String
  is_deleted : Bool
deriving Repr, DecidableEq

/-- Row of the role_permissions join table (app/models.py, class
RolePermissions, lines 254-271).  The active model declares the columns id,
role_id, permission_id, created_at and updated_at only: it has NO is_deleted
column, unlike every other table of the schema.  The surrogate id and the
timestamps are omitted as the subsystem never reads them; row identity for
the claims below is the (role_id, permission_id) pair, which carries a
uniqueness constraint. -/
structure RolePermission where
  role_id : Nat
  permission_id : Nat
deriving Repr, DecidableEq

/-- The portion of the database state the authorization subsystem touches. -/
structure Db where
  users : List User
  roles : List Role
  permissions : List Permission
  role_permissions : List RolePermission
deriving Repr, DecidableEq

/-- An HTTPException as raised by the routers: status code plus detail
string. -/
structure HTTPError where
  status_code : Nat
  detail : String
deriving Repr, DecidableEq

/-- The JWT claim payload built by create_access_token and read by
get_current_user.  Fields are optional because payload.get returns None for
an absent key; exp is a Unix timestamp (seconds, modelled as Nat). -/
structure JWTPayload where
  sub : Option String
  id : Option Nat
  role : Option String
  permissions : Option (List String)
  exp : Nat
deriving Repr, DecidableEq

/-- A bearer token: either a well-formed token signed with some key, or a
string that is not structurally a token at all. -/
inductive Token where
  | signed (payload : JWTPayload) (key : String)
  | malformed (raw : String)
deriving Repr, DecidableEq

/-- Model of jose.jwt.decode(token, key, algorithms): succeeds exactly when
the token is structurally valid, was signed with the same key, and its exp
claim lies strictly in the future; every failure (malformed structure, bad
signature, expiry) raises JWTError, modelled as none. -/
def jwt_decode (tok : Token) (key : String) (now : Nat) : Option JWTPayload :=
  match tok with
  | .malformed _ => none
  | .signed payload k => if k == key && now < payload.exp then some payload else none

/-- The request-scoped identity dict returned by get_current_user:
keys id, username, user_role, permissions. -/
structure IdentityContext where
  id : Nat
  username : String
  user_role : Option String
  permissions : List String
deriving Repr, DecidableEq

/-! ### Authenticator (app/routers/auth.py, authenticate_user) -/

/-- Translation of authenticate_user (auth.py lines 51-59).  The query
filters on username only: there is no is_deleted (nor is_active) predicate
in the source.  bcrypt_context.verify is an external collaborator and is
passed in as a function.  Python returns False on failure and the user row
on success; this is modelled as Option User. -/
def authenticate_user (bcrypt_verify : String → String → Bool)
    (username password : String) (db : Db) : Option User :=
  match db.users.find? (fun u => u.username == username) with
  | none => none
  | some user =>
      if bcrypt_verify password user.hashed_password then some user else none

/-! ### Role/permission resolution and token issuance
(app/routers/auth.py, create_access_token) -/

/-- Translation of the permission query in create_access_token (auth.py
lines 75-78): db.query(Permissions.name).join(RolePermissions) filtered on
RolePermissions.role_id == role_id only.  Neither the join row nor the
permission row is filtered on soft deletion (the join table has no such
column, and Permissions.is_deleted is not consulted).  The inner join pairs
each role_permissions row with the permissions row whose id equals its
permission_id. -/
def role_permission_names (db : Db) (role_id : Nat) : List String :=
  (db.role_permissions.filter (fun rp => rp.role_id == role_id)).filterMap
    (fun rp => (db.permissions.find? (fun p => p.id == rp.permission_id)).map
      Permission.name)

/-- The two ValueError failures of create_access_token, with the exact
message strings the source formats. -/
inductive IssueError where
  | roleInvalid (msg : String)
  | roleHasNoPermissions (msg : String)
deriving Repr, DecidableEq

/-- Translation of create_access_token (auth.py lines 62-98).  The role is
looked up by name among non-deleted roles; absence raises ValueError.  The
permission names are resolved through role_permission_names; an empty result
raises ValueError.  Otherwise the claim payload {sub, id, role, permissions,
exp = now + expires_delta} is signed with the configured secret key.
jwt.encode over a well-formed configuration does not fail, so the JWTError
branch of the source is not reachable in the model. -/
def create_access_token (username : String) (user_id : Nat) (role : String)
    (expires_delta : Nat) (db : Db) (now : Nat) (secret_key : String) :
    Except IssueError Token :=
  match db.roles.find? (fun r => r.name == role && !r.is_deleted) with
  | none =>
      .error (.roleInvalid
        ("Role \x27" ++ role ++ "\x27 does not exist or is deleted."))
  | some role_obj =>
      let permissions := role_permission_names db role_obj.id
      if permissions.isEmpty then
        .error (.roleHasNoPermissions
          ("Role \x27" ++ role ++ "\x27 has no valid permissions."))
      else
        .ok (.signed
          { sub := some username, id := some user_id, role := some role,
            permissions := some permissions, exp := now + expires_delta }
          secret_key)

/-! ### Token verifiers -/

/-- Translation of get_current_user in app/routers/auth.py (lines 102-124).
jwt.decode failure (signature, expiry, malformed structure) and a falsy sub
or id claim both answer 401 with the same detail string.  Python truthiness:
payload.get of an absent key is None, and None, the empty string and 0 are
all falsy, hence the getD defaults below. -/
def get_current_user (token : Token) (secret_key : String) (now : Nat) :
    Except HTTPError IdentityContext :=
  match jwt_decode token secret_key now with
  | none => .error ⟨401, "Could not validate credentials"⟩
  | some payload =>
      if payload.sub.getD "" == "" || payload.id.getD 0 == 0 then
        .error ⟨401, "Could not validate credentials"⟩
      else
        .ok { id := payload.id.getD 0, username := payload.sub.getD "",
              user_role := payload.role,
              permissions := payload.permissions.getD [] }

/-- Translation of get_current_user in app/dependencies.py (lines 38-65).
Identical control flow to the auth.py verifier, but the two failure branches
carry DIFFERENT detail strings: the missing-claims branch appends " 1" and
the JWTError branch appends " 2". -/
def dependencies_get_current_user (token : Token) (secret_key : String)
    (now : Nat) : Except HTTPError IdentityContext :=
  match jwt_decode token secret_key now with
  | none => .error ⟨401, "Could not validate credentials 2"⟩
  | some payload =>
      if payload.sub.getD "" == "" || payload.id.getD 0 == 0 then
        .error ⟨401, "Could not validate credentials 1"⟩
      else
        .ok { id := payload.id.getD 0, username := payload.sub.getD "",
              user_role := payload.role,
              permissions := payload.permissions.getD [] }

/-! ### Login endpoint (app/routers/auth.py, login_for_access_token) -/

/-- Translation of login_for_access_token (auth.py lines 157-170).  Both
authentication failures (unknown username, wrong password) fall into the
single falsy-user branch and raise the same 401.  On success the handler
reads user.role.name (the ORM relationship joins Users.role_id to Roles.id
with no soft-delete filter) and calls create_access_token; an absent role
row (AttributeError on None) or a ValueError from issuance propagates out of
the handler and surfaces as the generic 500 response of the framework. -/
def login_for_access_token (bcrypt_verify : String → String → Bool)
    (username password : String) (db : Db) (now ttl : Nat)
    (secret_key : String) : Except HTTPError Token :=
  match authenticate_user bcrypt_verify username password db with
  | none => .error ⟨401, "Could not validate credentials"⟩
  | some user =>
      match db.roles.find? (fun r => user.role_id == some r.id) with
      | none => .error ⟨500, "Internal Server Error"⟩
      | some role_obj =>
          match create_access_token user.username user.id role_obj.name ttl db
              now secret_key with
          | .error _ => .error ⟨500, "Internal Server Error"⟩
          | .ok tok => .ok tok

/-! ### Permission gate (app/utils.py) -/

/-- Python repr of a string (single-quoted), as interpolated into the
f-string of check_permissions. -/
def pyStrRepr (s : String) : String := "\x27" ++ s ++ "\x27"

/-- Python repr of a list of strings, as interpolated into the f-string of
check_permissions. -/
def pyListRepr (xs : List String) : String :=
  "[" ++ String.intercalate ", " (xs.map pyStrRepr) ++ "]"

/-- Translation of check_permissions (utils.py lines 52-69): collect the
required permissions absent from the permission set of the user, in order; if any
are missing raise 403 with a detail naming that list, else pass. -/
def check_permissions (user : IdentityContext)
    (required_permissions : List String) : Except HTTPError Unit :=
  let user_permissions := user.permissions
  let missing_permissions :=
    required_permissions.filter (fun perm => !user_permissions.contains perm)
  if missing_permissions.isEmpty then .ok ()
  else
    .error ⟨403, "Insufficient permissions. Missing: " ++
      pyListRepr missing_permissions⟩

/-- Translation of verify_user (utils.py lines 72-75): a missing identity
context answers 401. -/
def verify_user (user : Option IdentityContext) : Except HTTPError Unit :=
  match user with
  | none => .error ⟨401, "Authorization failed"⟩
  | some _ => .ok ()

/-- The permission gate as every protected endpoint composes it: verify_user
first (absent context short-circuits with its 401), then check_permissions
on the present context. -/
def require (user : Option IdentityContext) (required : List String) :
    Except HTTPError Unit :=
  match user with
  | none => .error ⟨401, "Authorization failed"⟩
  | some u => check_permissions u required

/-! ### Role-permission assignment (app/routers/roles.py) -/

/-- The per-permission loop of add_permissions_to_role (roles.py lines
99-112).  Each iteration looks the permission up among non-deleted
permissions (404 on absence, aborting the request before the final commit,
so earlier uncommitted inserts are discarded), then checks for an existing
association row for the (role, permission) pair -- with no soft-delete
filter, and seeing rows inserted by earlier iterations of the same request
via autoflush -- and inserts a new row only when none exists.  A duplicate
is skipped silently. -/
def add_permissions_loop (db : Db) (role_id : Nat) :
    List Nat → Except HTTPError Db
  | [] => .ok db
  | perm_id :: rest =>
      match db.permissions.find? (fun p => p.id == perm_id && !p.is_deleted) with
      | none =>
          .error ⟨404, "Permission with ID " ++ toString perm_id ++ " not found"⟩
      | some _ =>
          let already := db.role_permissions.any
            (fun rp => rp.role_id == role_id && rp.permission_id == perm_id)
          let db2 := if already then db
            else { db with role_permissions :=
                    db.role_permissions ++ [⟨role_id, perm_id⟩] }
          add_permissions_loop db2 role_id rest

/-- Translation of add_permissions_to_role (roles.py lines 86-116).  The
only guard before the lookups is verify_user; no check_permissions call
appears anywhere in roles.py.  The role is looked up among non-deleted
roles (404 on absence), then the permission loop runs and the result is
committed with a success message. -/
def add_permissions_to_role (user : Option IdentityContext) (db : Db)
    (role_id : Nat) (permissions : List Nat) :
    Except HTTPError (Db × String) :=
  match user with
  | none => .error ⟨401, "Authorization failed"⟩
  | some _ =>
      match db.roles.find? (fun r => r.id == role_id && !r.is_deleted) with
      | none => .error ⟨404, "Role not found"⟩
      | some _ =>
          (add_permissions_loop db role_id permissions).map
            (fun db2 => (db2, "Permissions assigned successfully"))

/-- The per-permission loop of remove_permissions_from_role (roles.py lines
159-173).  Each iteration looks the permission up among non-deleted
permissions (404 on absence), finds the association row for the pair, and --
when one exists -- executes role_permission.is_deleted = True.  The
RolePermissions model (models.py lines 254-271) declares no is_deleted
column, so that assignment writes an ephemeral Python attribute and the
subsequent commit persists no change to the row: the database state is
returned unchanged. -/
def remove_permissions_loop (db : Db) (role_id : Nat) :
    List Nat → Except HTTPError Db
  | [] => .ok db
  | permission_id :: rest =>
      match db.permissions.find?
          (fun p => p.id == permission_id && !p.is_deleted) with
      | none =>
          .error ⟨404,
            "Permission with ID " ++ toString permission_id ++ " not found"⟩
      | some _ => remove_permissions_loop db role_id rest

/-- Translation of remove_permissions_from_role (roles.py lines 142-178).
As with assignment, the only guard before the lookups is verify_user. -/
def remove_permissions_from_role (user : Option IdentityContext) (db : Db)
    (role_id : Nat) (permission_ids : List Nat) :
    Except HTTPError (Db × String) :=
  match user with
  | none => .error ⟨401, "Authorization failed"⟩
  | some _ =>
      match db.roles.find? (fun r => r.id == role_id && !r.is_deleted) with
      | none => .error ⟨404, "Role not found"⟩
      | some role_obj =>
          (remove_permissions_loop db role_id permission_ids).map
            (fun db2 => (db2, "Permissions removed from role " ++ role_obj.name))

/-- Number of association rows for a (role, permission) pair; the active
association set of the claims, there being no soft-delete column on the join
table. -/
def pair_count (db : Db) (role_id permission_id : Nat) : Nat :=
  (db.role_permissions.filter
    (fun rp => rp.role_id == role_id && rp.permission_id == permission_id)).length

/-! ### Helper lemmas -/

/-- A required-permission list filters down to nothing exactly when every
required permission is held. -/
lemma missing_nil_iff (perms req : List String) :
    req.filter (fun p => !perms.contains p) = [] ↔ ∀ p ∈ req, p ∈ perms := by
  rw [List.filter_eq_nil_iff]
  constructor
  · intro h p hp
    have h2 := h p hp
    simpa [List.elem_iff] using h2
  · intro h p hp
    simpa using h p hp

/-- check_permissions passes exactly when every required permission is a
member of the permission set of the context. -/
lemma check_permissions_ok_iff (u : IdentityContext) (req : List String) :
    check_permissions u req = .ok () ↔ ∀ p ∈ req, p ∈ u.permissions := by
  unfold check_permissions
  dsimp only
  split
  next h =>
    rw [List.isEmpty_iff] at h
    simp only [true_iff]
    exact (missing_nil_iff u.permissions req).mp h
  next h =>
    rw [List.isEmpty_iff] at h
    constructor
    · intro hc; exact absurd hc (by simp)
    · intro hall; exact absurd ((missing_nil_iff u.permissions req).mpr hall) h

/-- When check_permissions denies, the error is the 403 whose detail names
the filtered list of missing permissions. -/
lemma check_permissions_error_eq (u : IdentityContext) (req : List String)
    (e : HTTPError) (h : check_permissions u req = .error e) :
    e = ⟨403, "Insufficient permissions. Missing: " ++
      pyListRepr (req.filter (fun p => !u.permissions.contains p))⟩ := by
  unfold check_permissions at h
  dsimp only at h
  split at h
  · exact absurd h (by simp)
  · injection h with h2
    exact h2.symm

/-- Evaluation of the assignment loop on a single permission id that
resolves to a live permission row. -/
lemma add_loop_singleton (db : Db) (rid pid : Nat) (p : Permission)
    (hp : db.permissions.find? (fun q => q.id == pid && !q.is_deleted) = some p) :
    add_permissions_loop db rid [pid] =
      .ok (if db.role_permissions.any
            (fun rp => rp.role_id == rid && rp.permission_id == pid)
          then db
          else { db with role_permissions :=
                  db.role_permissions ++ [⟨rid, pid⟩] }) := by
  unfold add_permissions_loop
  rw [hp]
  rfl

/-- If no association row matches the pair, the pair count is zero. -/
lemma pair_count_zero_of_any_false (db : Db) (rid pid : Nat)
    (h : db.role_permissions.any
      (fun rp => rp.role_id == rid && rp.permission_id == pid) = false) :
    pair_count db rid pid = 0 := by
  unfold pair_count
  rw [List.length_eq_zero]
  rw [List.filter_eq_nil_iff]
  intro rp hrp
  rw [List.any_eq_false] at h
  exact fun hc => h rp hrp hc

/-- If some association row matches the pair, the pair count is positive. -/
lemma pair_count_pos_of_any_true (db : Db) (rid pid : Nat)
    (h : db.role_permissions.any
      (fun rp => rp.role_id == rid && rp.permission_id == pid) = true) :
    0 < pair_count db rid pid := by
  rw [List.any_eq_true] at h
  obtain ⟨rp, hmem, hpred⟩ := h
  unfold pair_count
  rw [List.length_pos]
  exact List.ne_nil_of_mem (List.mem_filter.mpr ⟨hmem, hpred⟩)

/-- Appending a fresh association row for the pair raises its count by
one. -/
lemma pair_count_append_self (db : Db) (rid pid : Nat) :
    pair_count { db with role_permissions :=
      db.role_permissions ++ [⟨rid, pid⟩] } rid pid =
    pair_count db rid pid + 1 := by
  unfold pair_count
  simp [List.filter_append]

/-! ### Claim theorems -/

/-- C1: the Permission Gate is functionally correct.  An absent identity
context is denied with 401 (unauthenticated).  A present context is allowed
exactly when every required permission is a member of its permission set,
and every denial is the 403 whose detail names exactly the missing
permissions. -/
theorem permission_gate_correct (ctx : IdentityContext) (req : List String) :
    require none req = .error ⟨401, "Authorization failed"⟩ ∧
    (require (some ctx) req = .ok () ↔ ∀ p ∈ req, p ∈ ctx.permissions) ∧
    (∀ e, require (some ctx) req = .error e →
      e = ⟨403, "Insufficient permissions. Missing: " ++
        pyListRepr (req.filter (fun p => !ctx.permissions.contains p))⟩) := by
  refine ⟨rfl, ?_, ?_⟩
  · exact check_permissions_ok_iff ctx req
  · intro e he
    exact check_permissions_error_eq ctx req e he

/-- Witness for C1 at the scenario of the spec: a clerk context holding
VIEW_STOCKS and VALIDATE_ORDERS passes the gate for VIEW_STOCKS, and the
denial for EDIT_USERS names exactly EDIT_USERS. -/
theorem permission_gate_correct_witness :
    require (some ⟨1, "alice", some "clerk", ["VIEW_STOCKS", "VALIDATE_ORDERS"]⟩)
      ["VIEW_STOCKS"] = .ok () ∧
    (⟨403, "Insufficient permissions. Missing: [\x27EDIT_USERS\x27]"⟩ : HTTPError) =
      ⟨403, "Insufficient permissions. Missing: " ++
        pyListRepr (["EDIT_USERS"].filter (fun p =>
          !(["VIEW_STOCKS", "VALIDATE_ORDERS"] : List String).contains p))⟩ := by
  constructor
  · exact (permission_gate_correct ⟨1, "alice", some "clerk",
      ["VIEW_STOCKS", "VALIDATE_ORDERS"]⟩ ["VIEW_STOCKS"]).2.1.mpr (by decide)
  · exact (permission_gate_correct ⟨1, "alice", some "clerk",
      ["VIEW_STOCKS", "VALIDATE_ORDERS"]⟩ ["EDIT_USERS"]).2.2
      ⟨403, "Insufficient permissions. Missing: [\x27EDIT_USERS\x27]"⟩ (by rfl)

/-- C2: issue/verify round-trip.  For a user with a nonzero id and nonempty
username (both hold for persisted users: the id column is a positive
autoincrement, and a falsy claim value would trip the truthiness test of the
verifier) and a role that issuance accepts, the issued token, verified at
any time before its expiry, yields the identity context whose permissions
are exactly the list resolved from the database at issuance time, and whose
id, username and role equal the issuance inputs.  Verification takes no
database argument, so a later change to the role-permission rows cannot
alter the result: the conclusion mentions only the issuance-time database. -/
theorem token_roundtrip_preserves_issuance (db : Db) (username : String)
    (user_id : Nat) (role : String) (expires_delta now t : Nat)
    (secret_key : String) (role_obj : Role)
    (hname : username ≠ "") (hid : user_id ≠ 0)
    (hrole : db.roles.find? (fun r => r.name == role && !r.is_deleted) =
      some role_obj)
    (hperms : role_permission_names db role_obj.id ≠ [])
    (ht : t < now + expires_delta) :
    create_access_token username user_id role expires_delta db now secret_key =
      .ok (.signed
        { sub := some username, id := some user_id, role := some role,
          permissions := some (role_permission_names db role_obj.id),
          exp := now + expires_delta } secret_key) ∧
    get_current_user
      (.signed
        { sub := some username, id := some user_id, role := some role,
          permissions := some (role_permission_names db role_obj.id),
          exp := now + expires_delta } secret_key) secret_key t =
      .ok { id := user_id, username := username, user_role := some role,
            permissions := role_permission_names db role_obj.id } := by
  constructor
  · unfold create_access_token
    rw [hrole]
    dsimp only
    rw [if_neg]
    simp [List.isEmpty_iff, hperms]
  · unfold get_current_user jwt_decode
    simp [ht, hname, hid]

/-- Witness for C2: alice of role clerk, two linked permissions, issuance at
time 1000 with a 20-second ttl, verification at 1010. -/
theorem token_roundtrip_preserves_issuance_witness :
    create_access_token "alice" 1 "clerk" 20
      ⟨[], [⟨1, "clerk", false⟩],
        [⟨1, "VIEW_STOCKS", false⟩, ⟨2, "VALIDATE_ORDERS", false⟩],
        [⟨1, 1⟩, ⟨1, 2⟩]⟩ 1000 "secret" =
      .ok (.signed
        { sub := some "alice", id := some 1, role := some "clerk",
          permissions := some (role_permission_names
            ⟨[], [⟨1, "clerk", false⟩],
              [⟨1, "VIEW_STOCKS", false⟩, ⟨2, "VALIDATE_ORDERS", false⟩],
              [⟨1, 1⟩, ⟨1, 2⟩]⟩ 1),
          exp := 1000 + 20 } "secret") ∧
    get_current_user
      (.signed
        { sub := some "alice", id := some 1, role := some "clerk",
          permissions := some (role_permission_names
            ⟨[], [⟨1, "clerk", false⟩],
              [⟨1, "VIEW_STOCKS", false⟩, ⟨2, "VALIDATE_ORDERS", false⟩],
              [⟨1, 1⟩, ⟨1, 2⟩]⟩ 1),
          exp := 1000 + 20 } "secret") "secret" 1010 =
      .ok { id := 1, username := "alice", user_role := some "clerk",
            permissions := role_permission_names
              ⟨[], [⟨1, "clerk", false⟩],
                [⟨1, "VIEW_STOCKS", false⟩, ⟨2, "VALIDATE_ORDERS", false⟩],
                [⟨1, 1⟩, ⟨1, 2⟩]⟩ 1 } :=
  token_roundtrip_preserves_issuance
    ⟨[], [⟨1, "clerk", false⟩],
      [⟨1, "VIEW_STOCKS", false⟩, ⟨2, "VALIDATE_ORDERS", false⟩],
      [⟨1, 1⟩, ⟨1, 2⟩]⟩
    "alice" 1 "clerk" 20 1000 1010 "secret" ⟨1, "clerk", false⟩
    (by decide) (by decide) (by rfl) (by decide) (by decide)

/-- C6: authentication failures are indistinguishable.  A login against a
database with no row for the username, and a login against a database whose
row for the username has a non-matching password hash, answer the identical
status code 401 and the identical detail string. -/
theorem login_failures_indistinguishable
    (bcrypt_verify : String → String → Bool) (u1 p1 u2 p2 : String)
    (db1 db2 : Db) (now ttl : Nat) (secret_key : String) (u : User)
    (h1 : db1.users.find? (fun x => x.username == u1) = none)
    (h2 : db2.users.find? (fun x => x.username == u2) = some u)
    (h3 : bcrypt_verify p2 u.hashed_password = false) :
    login_for_access_token bcrypt_verify u1 p1 db1 now ttl secret_key =
      .error ⟨401, "Could not validate credentials"⟩ ∧
    login_for_access_token bcrypt_verify u2 p2 db2 now ttl secret_key =
      .error ⟨401, "Could not validate credentials"⟩ := by
  constructor
  · unfold login_for_access_token authenticate_user
    rw [h1]
  · unfold login_for_access_token authenticate_user
    rw [h2]
    dsimp only
    rw [if_neg]
    simp [h3]

/-- Witness for C6: the username ghost does not exist, and alice exists with
a hash that does not match the presented password; both logins produce the
same 401 response. -/
theorem login_failures_indistinguishable_witness :
    login_for_access_token (fun p h => h == "HASH" ++ p) "ghost" "x"
      ⟨[⟨1, "alice", "HASHpw", true, false, some 1⟩], [], [], []⟩
      0 20 "secret" = .error ⟨401, "Could not validate credentials"⟩ ∧
    login_for_access_token (fun p h => h == "HASH" ++ p) "alice" "wrong"
      ⟨[⟨1, "alice", "HASHpw", true, false, some 1⟩], [], [], []⟩
      0 20 "secret" = .error ⟨401, "Could not validate credentials"⟩ :=
  login_failures_indistinguishable (fun p h => h == "HASH" ++ p)
    "ghost" "x" "alice" "wrong"
    ⟨[⟨1, "alice", "HASHpw", true, false, some 1⟩], [], [], []⟩
    ⟨[⟨1, "alice", "HASHpw", true, false, some 1⟩], [], [], []⟩
    0 20 "secret" ⟨1, "alice", "HASHpw", true, false, some 1⟩
    (by rfl) (by rfl) (by decide)

/-- C8: issuance fails exactly when the role is unusable, and then no token
is returned.  With no non-deleted role of the given name the issuer fails
with the role-invalid ValueError; with a role whose resolved permission list
is empty it fails with the no-permissions ValueError; otherwise it returns a
token.  Failure is an error value of the Except, which carries no token. -/
theorem issuance_fails_iff_role_unusable (username : String) (user_id : Nat)
    (role : String) (expires_delta : Nat) (db : Db) (now : Nat)
    (secret_key : String) :
    (db.roles.find? (fun r => r.name == role && !r.is_deleted) = none →
      create_access_token username user_id role expires_delta db now secret_key =
        .error (.roleInvalid
          ("Role \x27" ++ role ++ "\x27 does not exist or is deleted."))) ∧
    (∀ role_obj,
      db.roles.find? (fun r => r.name == role && !r.is_deleted) = some role_obj →
      (role_permission_names db role_obj.id = [] →
        create_access_token username user_id role expires_delta db now secret_key =
          .error (.roleHasNoPermissions
            ("Role \x27" ++ role ++ "\x27 has no valid permissions."))) ∧
      (role_permission_names db role_obj.id ≠ [] →
        ∃ tok, create_access_token username user_id role expires_delta db now
          secret_key = .ok tok)) := by
  constructor
  · intro h
    unfold create_access_token
    rw [h]
  · intro role_obj h
    constructor
    · intro hempty
      unfold create_access_token
      rw [h]
      dsimp only
      rw [if_pos]
      simp [List.isEmpty_iff, hempty]
    · intro hne
      refine ⟨(Token.signed ⟨some username, some user_id, some role,
        some (role_permission_names db role_obj.id), now + expires_delta⟩
        secret_key), ?_⟩
      unfold create_access_token
      rw [h]
      dsimp only
      rw [if_neg]
      simp [List.isEmpty_iff, hne]

/-- Witness for C8: issuing for the absent role ghost fails role-invalid,
and issuing for the role empty, which has no associations, fails
no-permissions; in both cases the result is an error, not a token. -/
theorem issuance_fails_iff_role_unusable_witness :
    create_access_token "alice" 1 "ghost" 20 ⟨[], [], [], []⟩ 0 "secret" =
      .error (.roleInvalid
        ("Role \x27" ++ "ghost" ++ "\x27 does not exist or is deleted.")) ∧
    create_access_token "alice" 1 "empty" 20
      ⟨[], [⟨1, "empty", false⟩], [], []⟩ 0 "secret" =
      .error (.roleHasNoPermissions
        ("Role \x27" ++ "empty" ++ "\x27 has no valid permissions.")) :=
  ⟨(issuance_fails_iff_role_unusable "alice" 1 "ghost" 20
      ⟨[], [], [], []⟩ 0 "secret").1 (by rfl),
   ((issuance_fails_iff_role_unusable "alice" 1 "empty" 20
      ⟨[], [⟨1, "empty", false⟩], [], []⟩ 0 "secret").2
      ⟨1, "empty", false⟩ (by rfl)).1 (by rfl)⟩

/-- C7 counterexample: two failing tokens handled by the dependencies-module
verifier receive different detail strings.  A well-signed unexpired token
missing its subject claim is rejected with the detail ending in 1, while a
structurally malformed token is rejected with the detail ending in 2, so the
client-visible message is not the same across sub-cases. -/
theorem verifier_messages_distinguish_subcases :
    dependencies_get_current_user
      (.signed ⟨none, some 1, some "clerk", some ["VIEW_STOCKS"], 100⟩ "secret")
      "secret" 0 = .error ⟨401, "Could not validate credentials 1"⟩ ∧
    dependencies_get_current_user (.malformed "not-a-jwt") "secret" 0 =
      .error ⟨401, "Could not validate credentials 2"⟩ ∧
    ("Could not validate credentials 1" : String) ≠
      "Could not validate credentials 2" :=
  ⟨rfl, rfl, by decide⟩

/-- C7 amended: every verification failure carries status 401 in both
verifiers, and the auth-router verifier uses one identical detail for all
sub-cases; but the dependencies-module verifier answers the JWTError
sub-cases (bad signature, expiry, malformed structure) with the detail
ending in 2 and the missing-claims sub-case with the detail ending in 1. -/
theorem verification_failures_all_401 (tok : Token) (secret_key : String)
    (now : Nat) :
    (∀ e, get_current_user tok secret_key now = .error e →
      e = ⟨401, "Could not validate credentials"⟩) ∧
    (jwt_decode tok secret_key now = none →
      dependencies_get_current_user tok secret_key now =
        .error ⟨401, "Could not validate credentials 2"⟩) ∧
    (∀ payload, jwt_decode tok secret_key now = some payload →
      (payload.sub.getD "" == "" || payload.id.getD 0 == 0) = true →
      dependencies_get_current_user tok secret_key now =
        .error ⟨401, "Could not validate credentials 1"⟩) ∧
    (∀ e, dependencies_get_current_user tok secret_key now = .error e →
      e.status_code = 401) := by
  refine ⟨?_, ?_, ?_, ?_⟩
  · intro e he
    unfold get_current_user at he
    cases hdec : jwt_decode tok secret_key now with
    | none => rw [hdec] at he; injection he with h; exact h.symm
    | some payload =>
        rw [hdec] at he
        dsimp only at he
        split at he
        · injection he with h; exact h.symm
        · exact absurd he (by simp)
  · intro h
    unfold dependencies_get_current_user
    rw [h]
  · intro payload hdec hfalsy
    unfold dependencies_get_current_user
    rw [hdec]
    dsimp only
    rw [if_pos hfalsy]
  · intro e he
    unfold dependencies_get_current_user at he
    cases hdec : jwt_decode tok secret_key now with
    | none => rw [hdec] at he; injection he with h; rw [← h]
    | some payload =>
        rw [hdec] at he
        dsimp only at he
        split at he
        · injection he with h; rw [← h]
        · exact absurd he (by simp)

/-- Witness for the amended C7: a malformed token is rejected by the
dependencies-module verifier with 401 and the detail ending in 2. -/
theorem verification_failures_all_401_witness :
    dependencies_get_current_user (.malformed "xx") "secret" 0 =
      .error ⟨401, "Could not validate credentials 2"⟩ :=
  (verification_failures_all_401 (.malformed "xx") "secret" 0).2.1 (by rfl)

/-- C9 counterexample: a stored user whose soft-delete flag is set still
authenticates when the presented password matches the stored hash, instead
of failing as an unknown user. -/
theorem soft_deleted_user_authenticates :
    authenticate_user (fun p h => h == "HASH" ++ p) "alice" "pw"
      ⟨[⟨1, "alice", "HASHpw", true, true, some 1⟩], [], [], []⟩ =
      some ⟨1, "alice", "HASHpw", true, true, some 1⟩ ∧
    (⟨1, "alice", "HASHpw", true, true, some 1⟩ : User).is_deleted = true :=
  ⟨rfl, rfl⟩

/-- C9 amended: authenticate_user looks the user up by username with no
soft-delete filter.  Authentication fails exactly when the username is
absent from the users table or the password does not match the stored hash
of the found row; the soft-delete flag of the row plays no part. -/
theorem authenticate_user_ignores_deleted_flag
    (bcrypt_verify : String → String → Bool) (username password : String)
    (db : Db) :
    (db.users.find? (fun x => x.username == username) = none →
      authenticate_user bcrypt_verify username password db = none) ∧
    (∀ u, db.users.find? (fun x => x.username == username) = some u →
      (bcrypt_verify password u.hashed_password = true →
        authenticate_user bcrypt_verify username password db = some u) ∧
      (bcrypt_verify password u.hashed_password = false →
        authenticate_user bcrypt_verify username password db = none)) := by
  constructor
  · intro h
    unfold authenticate_user
    rw [h]
  · intro u h
    constructor
    · intro hv
      unfold authenticate_user
      rw [h]
      dsimp only
      rw [if_pos hv]
    · intro hv
      unfold authenticate_user
      rw [h]
      dsimp only
      rw [if_neg]
      simp [hv]

/-- Witness for the amended C9: a present username with a matching password
authenticates and returns the stored row. -/
theorem authenticate_user_ignores_deleted_flag_witness :
    authenticate_user (fun p h => h == "HASH" ++ p) "bob" "pw"
      ⟨[⟨2, "bob", "HASHpw", true, false, none⟩], [], [], []⟩ =
      some ⟨2, "bob", "HASHpw", true, false, none⟩ :=
  ((authenticate_user_ignores_deleted_flag (fun p h => h == "HASH" ++ p)
      "bob" "pw" ⟨[⟨2, "bob", "HASHpw", true, false, none⟩], [], [], []⟩).2
    ⟨2, "bob", "HASHpw", true, false, none⟩ (by rfl)).1 (by decide)

/-- C10: a well-signed unexpired token with valid subject and user-id claims
but no permissions claim is accepted by both verifiers and yields an
identity context with an empty permission list, and check_permissions on
that context denies every non-empty requirement with 403 naming the whole
requirement. -/
theorem missing_permissions_claim_accepted_empty (sub : String)
    (user_id : Nat) (role : Option String) (xp t : Nat) (secret_key : String)
    (hs : sub ≠ "") (hid : user_id ≠ 0) (ht : t < xp) :
    get_current_user (.signed ⟨some sub, some user_id, role, none, xp⟩ secret_key)
      secret_key t = .ok ⟨user_id, sub, role, []⟩ ∧
    dependencies_get_current_user
      (.signed ⟨some sub, some user_id, role, none, xp⟩ secret_key)
      secret_key t = .ok ⟨user_id, sub, role, []⟩ ∧
    ∀ req : List String, req ≠ [] →
      check_permissions ⟨user_id, sub, role, []⟩ req =
        .error ⟨403, "Insufficient permissions. Missing: " ++ pyListRepr req⟩ := by
  refine ⟨?_, ?_, ?_⟩
  · unfold get_current_user jwt_decode
    simp [ht, hs, hid]
  · unfold dependencies_get_current_user jwt_decode
    simp [ht, hs, hid]
  · intro req hreq
    unfold check_permissions
    dsimp only
    rw [if_neg]
    · simp
    · simp [List.isEmpty_iff, hreq]

/-- Witness for C10: a token for alice with no permissions claim verifies to
the empty-permission context, and the gate then denies VIEW_STOCKS. -/
theorem missing_permissions_claim_accepted_empty_witness :
    get_current_user
      (.signed ⟨some "alice", some 1, some "clerk", none, 100⟩ "secret")
      "secret" 50 = .ok ⟨1, "alice", some "clerk", []⟩ ∧
    check_permissions ⟨1, "alice", some "clerk", []⟩ ["VIEW_STOCKS"] =
      .error ⟨403, "Insufficient permissions. Missing: " ++
        pyListRepr ["VIEW_STOCKS"]⟩ := by
  have h := missing_permissions_claim_accepted_empty "alice" 1 (some "clerk")
    100 50 "secret" (by decide) (by decide) (by decide)
  exact ⟨h.1, h.2.2 ["VIEW_STOCKS"] (by decide)⟩

/-- C3: evaluation of the resolver at the failing inputs.  First, with the
permission row soft-deleted but still linked to role 1, the resolver still
returns its name, although the claim requires deleted permissions to be
excluded.  Second, unassigning a permission through the remove endpoint
leaves the database unchanged (the join table has no soft-delete column for
the flag flip of roles.py line 173 to persist), so the resolved set still
contains the removed permission, although the claim requires the removal to
take effect. -/
theorem resolver_ignores_soft_deletion :
    role_permission_names
      ⟨[], [⟨1, "clerk", false⟩], [⟨1, "VIEW_STOCKS", true⟩], [⟨1, 1⟩]⟩ 1 =
      ["VIEW_STOCKS"] ∧
    remove_permissions_from_role (some ⟨7, "bob", some "basic", []⟩)
      ⟨[], [⟨1, "clerk", false⟩], [⟨1, "VIEW_STOCKS", false⟩], [⟨1, 1⟩]⟩ 1 [1] =
      .ok (⟨[], [⟨1, "clerk", false⟩], [⟨1, "VIEW_STOCKS", false⟩], [⟨1, 1⟩]⟩,
        "Permissions removed from role clerk") ∧
    role_permission_names
      ⟨[], [⟨1, "clerk", false⟩], [⟨1, "VIEW_STOCKS", false⟩], [⟨1, 1⟩]⟩ 1 =
      ["VIEW_STOCKS"] :=
  ⟨rfl, rfl, rfl⟩

/-- C4 counterexample: a caller whose identity context holds no permissions
at all is not denied with 403; the assignment endpoint proceeds through the
lookups, succeeds, and changes the association state. -/
theorem assign_without_admin_permission_proceeds :
    add_permissions_to_role (some ⟨7, "bob", some "basic", []⟩)
      ⟨[], [⟨1, "clerk", false⟩], [⟨1, "VIEW_STOCKS", false⟩], []⟩ 1 [1] =
      .ok (⟨[], [⟨1, "clerk", false⟩], [⟨1, "VIEW_STOCKS", false⟩], [⟨1, 1⟩]⟩,
        "Permissions assigned successfully") ∧
    (⟨[], [⟨1, "clerk", false⟩], [⟨1, "VIEW_STOCKS", false⟩], [⟨1, 1⟩]⟩ : Db) ≠
      ⟨[], [⟨1, "clerk", false⟩], [⟨1, "VIEW_STOCKS", false⟩], []⟩ :=
  ⟨rfl, by decide⟩

/-- C4 amended: assignment and unassignment check authentication only.  An
absent identity context is denied with 401 before any lookup and the state
is unchanged; for a present context the outcome is entirely independent of
which permissions the context holds, so no administrative-permission gate is
applied. -/
theorem roles_endpoints_check_authentication_only (db : Db) (role_id : Nat)
    (pids : List Nat) :
    add_permissions_to_role none db role_id pids =
      .error ⟨401, "Authorization failed"⟩ ∧
    remove_permissions_from_role none db role_id pids =
      .error ⟨401, "Authorization failed"⟩ ∧
    ∀ c1 c2 : IdentityContext,
      add_permissions_to_role (some c1) db role_id pids =
        add_permissions_to_role (some c2) db role_id pids ∧
      remove_permissions_from_role (some c1) db role_id pids =
        remove_permissions_from_role (some c2) db role_id pids :=
  ⟨rfl, rfl, fun _ _ => ⟨rfl, rfl⟩⟩

/-- C5 counterexample: with the (role 1, permission 1) association already
present, a second assign call for the same pair returns the 201 success
response unchanged, rather than failing with an already-assigned error. -/
theorem duplicate_assign_silently_succeeds :
    add_permissions_to_role (some ⟨7, "bob", some "basic", ["MANAGE_ROLES"]⟩)
      ⟨[], [⟨1, "clerk", false⟩], [⟨1, "VIEW_STOCKS", false⟩], [⟨1, 1⟩]⟩ 1 [1] =
      .ok (⟨[], [⟨1, "clerk", false⟩], [⟨1, "VIEW_STOCKS", false⟩], [⟨1, 1⟩]⟩,
        "Permissions assigned successfully") :=
  rfl

/-- C5 amended: assign fails with 404 when the role, or the permission, is
missing or soft-deleted; otherwise it succeeds, after which the pair appears
exactly once in the association set, and a second assign call for the same
pair succeeds again with the same message while silently skipping the
insert, leaving the association set unchanged. -/
theorem assign_unique_idempotent_and_notfound (ctx : IdentityContext)
    (db : Db) (rid pid : Nat) :
    (db.roles.find? (fun r => r.id == rid && !r.is_deleted) = none →
      add_permissions_to_role (some ctx) db rid [pid] =
        .error ⟨404, "Role not found"⟩) ∧
    (∀ r, db.roles.find? (fun r2 => r2.id == rid && !r2.is_deleted) = some r →
      (db.permissions.find? (fun q => q.id == pid && !q.is_deleted) = none →
        add_permissions_to_role (some ctx) db rid [pid] =
          .error ⟨404, "Permission with ID " ++ toString pid ++ " not found"⟩) ∧
      (∀ p, db.permissions.find? (fun q => q.id == pid && !q.is_deleted) = some p →
        pair_count db rid pid ≤ 1 →
        ∃ db2,
          add_permissions_to_role (some ctx) db rid [pid] =
            .ok (db2, "Permissions assigned successfully") ∧
          pair_count db2 rid pid = 1 ∧
          add_permissions_to_role (some ctx) db2 rid [pid] =
            .ok (db2, "Permissions assigned successfully"))) := by
  refine ⟨?_, ?_⟩
  · intro h
    unfold add_permissions_to_role
    rw [h]
  · intro r hr
    refine ⟨?_, ?_⟩
    · intro hp
      unfold add_permissions_to_role add_permissions_loop
      rw [hr, hp]
      rfl
    · intro p hp hcount
      by_cases hal : db.role_permissions.any
          (fun rp => rp.role_id == rid && rp.permission_id == pid) = true
      · refine ⟨db, ?_, ?_, ?_⟩
        · unfold add_permissions_to_role
          rw [hr]
          dsimp only
          rw [add_loop_singleton db rid pid p hp, if_pos hal]
          rfl
        · exact Nat.le_antisymm hcount (pair_count_pos_of_any_true db rid pid hal)
        · unfold add_permissions_to_role
          rw [hr]
          dsimp only
          rw [add_loop_singleton db rid pid p hp, if_pos hal]
          rfl
      · rw [Bool.not_eq_true] at hal
        refine ⟨{ db with role_permissions :=
          db.role_permissions ++ [⟨rid, pid⟩] }, ?_, ?_, ?_⟩
        · unfold add_permissions_to_role
          rw [hr]
          dsimp only
          rw [add_loop_singleton db rid pid p hp, if_neg]
          · rfl
          · simp [hal]
        · rw [pair_count_append_self, pair_count_zero_of_any_false db rid pid hal]
        · have hroles2 : ({ db with role_permissions :=
              db.role_permissions ++ [⟨rid, pid⟩] } : Db).roles = db.roles := rfl
          have hperm2 : ({ db with role_permissions :=
              db.role_permissions ++ [⟨rid, pid⟩] } : Db).permissions
              = db.permissions := rfl
          unfold add_permissions_to_role
          rw [hroles2, hr]
          dsimp only
          rw [add_loop_singleton _ rid pid p (by rw [hperm2, hp])]
          rw [if_pos]
          · rfl
          · rw [List.any_eq_true]
            exact ⟨⟨rid, pid⟩, List.mem_append_right _ (List.mem_singleton_self _),
              by simp⟩

/-- Witness for the amended C5: assigning permission 1 to role 1 on a fresh
database yields exactly one association for the pair and a second identical
call succeeds without change. -/
theorem assign_unique_idempotent_and_notfound_witness :
    add_permissions_to_role (some ⟨7, "bob", some "basic", []⟩)
      ⟨[], [⟨1, "clerk", false⟩], [⟨1, "VIEW_STOCKS", false⟩], []⟩ 1 [1] =
      .ok (⟨[], [⟨1, "clerk", false⟩], [⟨1, "VIEW_STOCKS", false⟩], [⟨1, 1⟩]⟩,
        "Permissions assigned successfully") ∧
    pair_count
      ⟨[], [⟨1, "clerk", false⟩], [⟨1, "VIEW_STOCKS", false⟩], [⟨1, 1⟩]⟩ 1 1 = 1 ∧
    add_permissions_to_role (some ⟨7, "bob", some "basic", []⟩)
      ⟨[], [⟨1, "clerk", false⟩], [⟨1, "VIEW_STOCKS", false⟩], [⟨1, 1⟩]⟩ 1 [1] =
      .ok (⟨[], [⟨1, "clerk", false⟩], [⟨1, "VIEW_STOCKS", false⟩], [⟨1, 1⟩]⟩,
        "Permissions assigned successfully") := by
  obtain ⟨db2, h1, h2, h3⟩ := ((assign_unique_idempotent_and_notfound
      ⟨7, "bob", some "basic", []⟩
      ⟨[], [⟨1, "clerk", false⟩], [⟨1, "VIEW_STOCKS", false⟩], []⟩ 1 1).2
    ⟨1, "clerk", false⟩ (by rfl)).2 ⟨1, "VIEW_STOCKS", false⟩ (by rfl)
    (by decide)
  have hdb : db2 =
      ⟨[], [⟨1, "clerk", false⟩], [⟨1, "VIEW_STOCKS", false⟩], [⟨1, 1⟩]⟩ := by
    have h4 := h1.symm.trans (rfl :
      add_permissions_to_role (some ⟨7, "bob", some "basic", []⟩)
        ⟨[], [⟨1, "clerk", false⟩], [⟨1, "VIEW_STOCKS", false⟩], []⟩ 1 [1] =
      .ok (⟨[], [⟨1, "clerk", false⟩], [⟨1, "VIEW_STOCKS", false⟩], [⟨1, 1⟩]⟩,
        "Permissions assigned successfully"))
    injection h4 with h5
    exact congrArg Prod.fst h5
  subst hdb
  exact ⟨h1, h2, h3⟩

end StockMgmt
